import Mathlib

/-!
Verification of the seat-reservation and order-finalization engine of an
event-ticketing backend.

The development shallowly embeds the relevant JavaScript source:
* `src/models/Event.js` — event schema with the pre-save clamp hook;
* `src/controllers/payment.controller.js` — `finalizePaidOrder`,
  `getStripeResultBySession`, and the `stripeWebhook` expired branch;
* `src/controllers/event.controller.js` — the `bookSeats` handler
  (read-then-write seat booking);
* the Booking schema (unique index on `ticketId` only).

JavaScript numbers are modelled as rationals (`ℚ`); Mongo documents are
records; the Event collection is a map from ids to optional events; the
Booking collection is a list (the `_id` of a booking is its insertion index).
Fields that the embedded logic neither reads nor writes (titles, venues,
images, buyer names, …) are omitted; every embedded operation carries
them unchanged in the source.
-/

namespace EventTicketing

/-- JavaScript truthiness of a nullable string: `null`/`undefined` and the
empty string are falsy, every other string is truthy. -/
def strTruthy : Option String → Bool
  | none => false
  | some s => decide (s ≠ "")

/-- JavaScript `a || b` on nullable strings: keep `a` when truthy, else `b`. -/
def jsOr (a b : Option String) : Option String :=
  if strTruthy a then a else b

/-- Event document (`src/models/Event.js`): the two seat-count fields the
seat logic reads and writes.  `totalSeats` and `bookedSeats` are JS numbers,
modelled as `ℚ`. -/
@[ext]
structure Event where
  totalSeats : ℚ
  bookedSeats : ℚ
  deriving Repr, DecidableEq

/-- The `eventSchema.pre("save")` hook (`src/models/Event.js` lines 34-41):
first clamp `bookedSeats` down to `totalSeats`, then clamp it up to 0. -/
def eventPreSave (e : Event) : Event :=
  let b1 := if e.totalSeats < e.bookedSeats then e.totalSeats else e.bookedSeats
  let b2 := if b1 < 0 then 0 else b1
  { e with bookedSeats := b2 }

/-- Event ids. -/
abbrev EventId := Nat

/-- The Event collection: a map from event id to the stored document. -/
abbrev Store := EventId → Option Event

/-- Point update of the Event collection. -/
def Store.update (st : Store) (id : EventId) (e : Event) : Store :=
  fun j => if j = id then some e else st j

/-- The capacity-checked atomic reservation primitive: the conditional
`Event.findOneAndUpdate` of `finalizePaidOrder`
(`payment.controller.js` lines 54-61, identically `booking.controller.js`
lines 37-46): in one conditional step, increment `bookedSeats` by `seats`
and return the updated document when `bookedSeats + seats ≤ totalSeats`
holds of the stored document; otherwise return `null` and leave the store
untouched. -/
def tryReserve (st : Store) (id : EventId) (seats : ℚ) : Option Event × Store :=
  match st id with
  | none => (none, st)
  | some e =>
    if e.bookedSeats + seats ≤ e.totalSeats then
      let e' := { e with bookedSeats := e.bookedSeats + seats }
      (some e', Store.update st id e')
    else (none, st)

/-- The compensating decrement: `Event.findByIdAndUpdate(order.eventId,
{ $inc: { bookedSeats: -seats } })` (`payment.controller.js` line 100).
The update is unconditional; it runs neither the schema `min` validator
nor the pre-save hook, so the stored value is exactly
`bookedSeats - seats`. -/
def release (st : Store) (id : EventId) (seats : ℚ) : Store :=
  match st id with
  | none => st
  | some e => Store.update st id { e with bookedSeats := e.bookedSeats - seats }

/-- Lifecycle status of a `StripeOrder` (`src/models/StripeOrder.js`,
`status` enum). -/
inductive OrderStatus
  | PENDING | PAID | FAILED | EXPIRED | CANCELLED
  deriving Repr, DecidableEq

/-- The status string stored in Mongo for an `OrderStatus`. -/
def OrderStatus.name : OrderStatus → String
  | .PENDING => "PENDING"
  | .PAID => "PAID"
  | .FAILED => "FAILED"
  | .EXPIRED => "EXPIRED"
  | .CANCELLED => "CANCELLED"

/-- StripeOrder document (`src/models/StripeOrder.js`): the fields read or
written by the finalization and trigger code.  `bookingId` is a nullable
Booking id (modelled as the index of the booking in the ledger), `ticketId` a
nullable string. -/
structure Order where
  eventId : EventId
  quantity : ℚ
  status : OrderStatus
  paymentStatus : Option String
  stripeSessionId : Option String
  stripePaymentIntentId : Option String
  bookingId : Option Nat
  ticketId : Option String
  deriving Repr, DecidableEq

/-- Booking document (schema in `server.js` lines 341-378): the fields the
finalization logic writes.  The `_id` of a booking is modelled as its index
in the ledger list. -/
structure Booking where
  event : EventId
  seats : ℚ
  ticketId : String
  paymentStatus : String
  stripeSessionId : Option String
  stripePaymentIntentId : Option String
  deriving Repr, DecidableEq

/-- Outcome of `Booking.create` against the unique indexes of the schema. -/
inductive CreateResult
  | created (b : Booking)
  | dupTicket
  deriving Repr, DecidableEq

/-- `Booking.create` against the Booking schema (`server.js` lines 341-378):
the only uniqueness constraint declared is `unique: true` on `ticketId`, so
the insert fails (duplicate-key) exactly when an existing booking carries
the same `ticketId`; no field of the schema — in particular not
`stripeSessionId` — carries any other uniqueness constraint. -/
def bookingCreate (ledger : List Booking) (b : Booking) : CreateResult × List Booking :=
  if ledger.any (fun x => x.ticketId = b.ticketId) then (.dupTicket, ledger)
  else (.created b, ledger ++ [b])

/-- The slice of a Stripe checkout session consulted by the controllers:
`session.id`, `session.payment_status`, `session.payment_intent`
(all nullable as far as the code is concerned). -/
structure Session where
  id : Option String
  payment_status : Option String
  payment_intent : Option String
  deriving Repr, DecidableEq

/-- Combined mutable state touched by `finalizePaidOrder`: the order being
finalized, the Event collection, and the Booking ledger. -/
structure FinState where
  order : Order
  store : Store
  ledger : List Booking

/-- Result of `finalizePaidOrder`: the returned object, or a re-raised
booking-write failure (`throw bookingErr`). -/
inductive FinalizeResult
  | ready (ticketId : String) (bookingId : Option Nat)
  | failed (message : String)
  | thrown
  deriving Repr, DecidableEq

/-- The order mutation shared by the three failure branches of
`finalizePaidOrder` (lines 46-48, 64-66 and 102-104 of
`payment.controller.js`): `status = FAILED`,
`paymentStatus = session payment_status, else prior paymentStatus, else the literal paid`,
`stripePaymentIntentId = session?.payment_intent ||
order.stripePaymentIntentId || null`. -/
def failedOrder (o : Order) (sess : Session) : Order :=
  { o with
    status := .FAILED,
    paymentStatus := jsOr sess.payment_status (jsOr o.paymentStatus (some "paid")),
    stripePaymentIntentId :=
      jsOr sess.payment_intent (jsOr o.stripePaymentIntentId none) }

/-- `finalizePaidOrder({ order, session })`
(`payment.controller.js` lines 38-108).

* `g` stands for the string produced by `generateTicketId()` (wall-clock
  time plus a random suffix — a nondeterministic input of the run);
* `ioFail` stands for a `Booking.create` failure other than a duplicate key
  (ledger unreachable, …), also an input of the run.

Steps, exactly as in the source: idempotency short-circuit on
`order.ticketId && order.bookingId`; quantity validation
`!seats || seats < 1`; capacity-checked atomic reserve; `Booking.create`;
on create success commit the order as `PAID`; on any create failure roll
the seats back with `release`, mark the order `FAILED`, persist it, and
re-raise. -/
def finalizePaidOrder (g : String) (ioFail : Bool) (sess : Session)
    (s : FinState) : FinalizeResult × FinState :=
  if strTruthy s.order.ticketId && s.order.bookingId.isSome then
    (.ready (s.order.ticketId.getD "") s.order.bookingId, s)
  else if s.order.quantity = 0 ∨ s.order.quantity < 1 then
    (.failed "Invalid seats.", { s with order := failedOrder s.order sess })
  else
    match tryReserve s.store s.order.eventId s.order.quantity with
    | (none, _) =>
      (.failed "Not enough seats available.",
       { s with order := failedOrder s.order sess })
    | (some _, st') =>
      if ioFail then
        (.thrown,
         { order := failedOrder s.order sess,
           store := release st' s.order.eventId s.order.quantity,
           ledger := s.ledger })
      else
        match bookingCreate s.ledger
            { event := s.order.eventId,
              seats := s.order.quantity,
              ticketId := g,
              paymentStatus := "PAID",
              stripeSessionId := jsOr s.order.stripeSessionId (jsOr sess.id none),
              stripePaymentIntentId := jsOr sess.payment_intent none } with
        | (.dupTicket, _) =>
          (.thrown,
           { order := failedOrder s.order sess,
             store := release st' s.order.eventId s.order.quantity,
             ledger := s.ledger })
        | (.created _, l') =>
          (.ready g (some s.ledger.length),
           { order :=
               { s.order with
                 status := .PAID,
                 paymentStatus := jsOr sess.payment_status (some "paid"),
                 stripePaymentIntentId := jsOr sess.payment_intent none,
                 bookingId := some s.ledger.length,
                 ticketId := some g },
             store := st',
             ledger := l' })

/-- HTTP-level outcome of the `bookSeats` handler. -/
inductive BookSeatsReply
  | badSeats
  | notFound
  | noCapacity
  | ok (bookedSeats remainingSeats : ℚ)
  deriving Repr, DecidableEq

/-- The `bookSeats` handler (`event.controller.js` lines 251-281, repeated
in `booking.routes.js` lines 360-380): an application-level
read-then-write.  The document is read once (`findById`), giving
`snapshot`; the capacity check `seats > totalSeats - bookedSeats` and the
new value `bookedSeats = booked + seats` are computed from that snapshot;
`save()` then runs the pre-save clamp hook and writes the resulting
document over whatever the store holds at commit time (`st`), which may
have moved since the read. -/
def bookSeats (seats : ℚ) (snapshot : Option Event) (st : Store)
    (id : EventId) : BookSeatsReply × Store :=
  if seats = 0 ∨ seats < 1 then (.badSeats, st)
  else
    match snapshot with
    | none => (.notFound, st)
    | some ev =>
      if ev.totalSeats - ev.bookedSeats < seats then (.noCapacity, st)
      else
        let ev' := eventPreSave { ev with bookedSeats := ev.bookedSeats + seats }
        (.ok ev'.bookedSeats (ev'.totalSeats - ev'.bookedSeats),
         Store.update st id ev')

/-- The `checkout.session.expired` branch of `stripeWebhook`
(`payment.controller.js` lines 308-319): if the referenced order exists and
its status is still `PENDING`, set it to `EXPIRED` and save; in every other
case do nothing.  The branch touches neither the Event collection nor the
Booking ledger, which it carries through unchanged. -/
def webhookExpired (found : Option Order) (st : Store) (ledger : List Booking) :
    Option Order × Store × List Booking :=
  match found with
  | some o =>
    if o.status = .PENDING then (some { o with status := .EXPIRED }, st, ledger)
    else (some o, st, ledger)
  | none => (none, st, ledger)

/-- The JSON reply of the status-poll endpoint, together with two trace
flags recording whether the handler called the payment provider
(`stripe.checkout.sessions.retrieve`) and whether it invoked
`finalizePaidOrder`. -/
structure PollReply where
  httpStatus : Nat
  status : String
  ticketId : Option String
  bookingId : Option Nat
  message : Option String
  contactedStripe : Bool
  invokedFinalize : Bool
  deriving Repr, DecidableEq

/-- `getStripeResultBySession` (`payment.controller.js` lines 113-184).
`found` is the result of `StripeOrder.findOne({ stripeSessionId })`;
`sess` is what `stripe.checkout.sessions.retrieve` would return; `g` and
`ioFail` parametrise the inner `finalizePaidOrder` run as above.  Branches,
exactly as in the source: 404 when no order matches; `READY` with the
stored `ticketId` (and `bookingId || null`) as soon as `order.ticketId` is
truthy; the status of the order itself when it is `FAILED`/`EXPIRED`/`CANCELLED`;
otherwise retrieve the session, report `PENDING` unless
`payment_status` equals `paid`, and if paid run `finalizePaidOrder` —
a thrown finalize error is caught and reported as a 500 `ERROR`. -/
def getStripeResultBySession (g : String) (ioFail : Bool) (sess : Session)
    (found : Option Order) (st : Store) (ledger : List Booking) :
    PollReply × Store × List Booking × Option Order :=
  match found with
  | none =>
    (⟨404, "NOT_FOUND", none, none,
      some "Stripe order not found for this session.", false, false⟩,
     st, ledger, none)
  | some o =>
    if strTruthy o.ticketId then
      (⟨200, "READY", o.ticketId, o.bookingId, none, false, false⟩,
       st, ledger, some o)
    else if o.status = .FAILED ∨ o.status = .EXPIRED ∨ o.status = .CANCELLED then
      (⟨200, o.status.name, none, none,
        some ("Order " ++ o.status.name.toLower ++ "."), false, false⟩,
       st, ledger, some o)
    else if sess.payment_status ≠ some "paid" then
      (⟨200, "PENDING", none, none, some "Payment not confirmed yet.",
        true, false⟩,
       st, ledger, some o)
    else
      match finalizePaidOrder g ioFail sess ⟨o, st, ledger⟩ with
      | (.ready t b, s') =>
        (⟨200, "READY", some t, b, none, true, true⟩,
         s'.store, s'.ledger, some s'.order)
      | (.failed m, s') =>
        (⟨200, "FAILED", none, none, some m, true, true⟩,
         s'.store, s'.ledger, some s'.order)
      | (.thrown, s') =>
        (⟨500, "ERROR", none, none, some "Server error", true, true⟩,
         s'.store, s'.ledger, some s'.order)

/- ### Basic characterizations of the store primitives -/

theorem Store.update_same (st : Store) (id : EventId) (e : Event) :
    Store.update st id e id = some e := by
  simp [Store.update]

theorem Store.update_other (st : Store) (id : EventId) (e : Event)
    (j : EventId) (h : j ≠ id) : Store.update st id e j = st j := by
  simp [Store.update, h]

theorem tryReserve_has_room (st : Store) (id : EventId) (seats : ℚ) (e : Event)
    (hid : st id = some e) (h : e.bookedSeats + seats ≤ e.totalSeats) :
    tryReserve st id seats =
      (some { e with bookedSeats := e.bookedSeats + seats },
       Store.update st id { e with bookedSeats := e.bookedSeats + seats }) := by
  simp [tryReserve, hid, h]

theorem tryReserve_full (st : Store) (id : EventId) (seats : ℚ) (e : Event)
    (hid : st id = some e) (h : ¬ e.bookedSeats + seats ≤ e.totalSeats) :
    tryReserve st id seats = (none, st) := by
  simp [tryReserve, hid, h]

theorem tryReserve_missing (st : Store) (id : EventId) (seats : ℚ)
    (hid : st id = none) : tryReserve st id seats = (none, st) := by
  simp [tryReserve, hid]

theorem release_found (st : Store) (id : EventId) (seats : ℚ) (e : Event)
    (hid : st id = some e) :
    release st id seats =
      Store.update st id { e with bookedSeats := e.bookedSeats - seats } := by
  simp [release, hid]

/- ### Branch characterizations of `finalizePaidOrder` -/

/-- Idempotency short-circuit branch (lines 40-42): when `order.ticketId`
and `order.bookingId` are both truthy, return the stored identifiers and
mutate nothing. -/
theorem finalize_short (g : String) (io : Bool) (sess : Session) (s : FinState)
    (h : (strTruthy s.order.ticketId && s.order.bookingId.isSome) = true) :
    finalizePaidOrder g io sess s =
      (.ready (s.order.ticketId.getD "") s.order.bookingId, s) := by
  unfold finalizePaidOrder
  rw [if_pos h]

/-- Quantity-validation branch (lines 44-51). -/
theorem finalize_invalid (g : String) (io : Bool) (sess : Session) (s : FinState)
    (h : (strTruthy s.order.ticketId && s.order.bookingId.isSome) = false)
    (hq : s.order.quantity < 1) :
    finalizePaidOrder g io sess s =
      (.failed "Invalid seats.", { s with order := failedOrder s.order sess }) := by
  unfold finalizePaidOrder
  rw [if_neg (by simp [h]), if_pos (Or.inr hq)]

/-- Capacity-exhausted branch (lines 63-69), with the event present. -/
theorem finalize_nocap (g : String) (io : Bool) (sess : Session) (s : FinState)
    (e : Event)
    (h : (strTruthy s.order.ticketId && s.order.bookingId.isSome) = false)
    (hq : 1 ≤ s.order.quantity)
    (hid : s.store s.order.eventId = some e)
    (hcap : ¬ e.bookedSeats + s.order.quantity ≤ e.totalSeats) :
    finalizePaidOrder g io sess s =
      (.failed "Not enough seats available.",
       { s with order := failedOrder s.order sess }) := by
  unfold finalizePaidOrder
  rw [if_neg (by simp [h]), if_neg (by rintro (h0 | h1) <;> linarith),
    tryReserve_full s.store s.order.eventId s.order.quantity e hid hcap]

/-- Booking-write failure branch (lines 98-108): reserve succeeded, then
`Booking.create` failed — either an infrastructure failure (`io = true`) or
a duplicate `ticketId`.  The seats are rolled back with `release`, the
order is marked `FAILED` and saved, and the error is re-raised. -/
theorem finalize_createfail (g : String) (io : Bool) (sess : Session)
    (s : FinState) (e : Event)
    (h : (strTruthy s.order.ticketId && s.order.bookingId.isSome) = false)
    (hq : 1 ≤ s.order.quantity)
    (hid : s.store s.order.eventId = some e)
    (hcap : e.bookedSeats + s.order.quantity ≤ e.totalSeats)
    (hfail : io = true ∨ (s.ledger.any (fun x => x.ticketId = g)) = true) :
    finalizePaidOrder g io sess s =
      (.thrown,
       { order := failedOrder s.order sess,
         store :=
           release
             (Store.update s.store s.order.eventId
               { e with bookedSeats := e.bookedSeats + s.order.quantity })
             s.order.eventId s.order.quantity,
         ledger := s.ledger }) := by
  unfold finalizePaidOrder
  rw [if_neg (by simp [h]), if_neg (by rintro (h0 | h1) <;> linarith),
    tryReserve_has_room s.store s.order.eventId s.order.quantity e hid hcap]
  rcases hfail with hio | hdup
  · rw [hio]
    simp
  · cases io
    · simp only [Bool.false_eq_true, if_false]
      unfold bookingCreate
      rw [if_pos hdup]
    · simp

/-- Successful finalization (lines 71-97): reserve succeeded, the booking
insert succeeded, the order is committed as `PAID` with the new
identifiers. -/
theorem finalize_success (g : String) (io : Bool) (sess : Session)
    (s : FinState) (e : Event)
    (h : (strTruthy s.order.ticketId && s.order.bookingId.isSome) = false)
    (hq : 1 ≤ s.order.quantity)
    (hid : s.store s.order.eventId = some e)
    (hcap : e.bookedSeats + s.order.quantity ≤ e.totalSeats)
    (hio : io = false)
    (hdup : (s.ledger.any (fun x => x.ticketId = g)) = false) :
    finalizePaidOrder g io sess s =
      (.ready g (some s.ledger.length),
       { order :=
           { s.order with
             status := .PAID,
             paymentStatus := jsOr sess.payment_status (some "paid"),
             stripePaymentIntentId := jsOr sess.payment_intent none,
             bookingId := some s.ledger.length,
             ticketId := some g },
         store :=
           Store.update s.store s.order.eventId
             { e with bookedSeats := e.bookedSeats + s.order.quantity },
         ledger :=
           s.ledger ++
             [{ event := s.order.eventId,
                seats := s.order.quantity,
                ticketId := g,
                paymentStatus := "PAID",
                stripeSessionId := jsOr s.order.stripeSessionId (jsOr sess.id none),
                stripePaymentIntentId := jsOr sess.payment_intent none }] }) := by
  unfold finalizePaidOrder
  rw [if_neg (by simp [h]), if_neg (by rintro (h0 | h1) <;> linarith),
    tryReserve_has_room s.store s.order.eventId s.order.quantity e hid hcap, hio]
  simp only [Bool.false_eq_true, if_false]
  unfold bookingCreate
  rw [if_neg (by simp [hdup])]

/-- Reservation against a missing event: `findOneAndUpdate` matches no
document, so finalization takes the same failure branch as capacity
exhaustion. -/
theorem finalize_noevent (g : String) (io : Bool) (sess : Session) (s : FinState)
    (h : (strTruthy s.order.ticketId && s.order.bookingId.isSome) = false)
    (hq : 1 ≤ s.order.quantity)
    (hid : s.store s.order.eventId = none) :
    finalizePaidOrder g io sess s =
      (.failed "Not enough seats available.",
       { s with order := failedOrder s.order sess }) := by
  unfold finalizePaidOrder
  rw [if_neg (by simp [h]), if_neg (by rintro (h0 | h1) <;> linarith),
    tryReserve_missing s.store s.order.eventId s.order.quantity hid]

/- ### C1 — the capacity-checked reservation primitive -/

/-- C1: for every stored event and every seats count `s ≥ 1`, the
capacity-checked reservation primitive (`tryReserve`, the conditional
`Event.findOneAndUpdate` shared by `finalizePaidOrder` and
`createBooking`) increments `bookedSeats` by exactly `s` and returns the
updated event if and only if `bookedSeats + s ≤ totalSeats` holds of the
stored document at the moment of the update; otherwise it returns `null`
and leaves the store untouched — a single conditional step on the current
store, with no separate read followed by a write. -/
theorem reserve_increments_iff_capacity (st : Store) (id : EventId)
    (e : Event) (s : ℚ) (hid : st id = some e) (_hs : 1 ≤ s) :
    ((∃ e', (tryReserve st id s).1 = some e'
        ∧ e'.bookedSeats = e.bookedSeats + s
        ∧ e'.totalSeats = e.totalSeats
        ∧ (tryReserve st id s).2 = Store.update st id e')
      ↔ e.bookedSeats + s ≤ e.totalSeats)
    ∧ (¬ e.bookedSeats + s ≤ e.totalSeats →
        (tryReserve st id s).1 = none ∧ (tryReserve st id s).2 = st) := by
  by_cases h : e.bookedSeats + s ≤ e.totalSeats
  · rw [tryReserve_has_room st id s e hid h]
    exact ⟨⟨fun _ => h, fun _ => ⟨_, rfl, rfl, rfl, rfl⟩⟩, fun hc => absurd h hc⟩
  · rw [tryReserve_full st id s e hid h]
    refine ⟨⟨?_, fun hc => absurd hc h⟩, fun _ => ⟨rfl, rfl⟩⟩
    rintro ⟨e', he', -⟩
    cases he'

/-- Witness for C1 at a concrete store: one event, `totalSeats = 10`,
`bookedSeats = 3`, reserving 2 seats. -/
theorem reserve_increments_iff_capacity_witness :
    ((∃ e', (tryReserve (Store.update (fun _ => none) 0 ⟨10, 3⟩) 0 2).1 = some e'
        ∧ e'.bookedSeats = (3 : ℚ) + 2
        ∧ e'.totalSeats = (10 : ℚ)
        ∧ (tryReserve (Store.update (fun _ => none) 0 ⟨10, 3⟩) 0 2).2
            = Store.update (Store.update (fun _ => none) 0 ⟨10, 3⟩) 0 e')
      ↔ (3 : ℚ) + 2 ≤ 10)
    ∧ (¬ (3 : ℚ) + 2 ≤ 10 →
        (tryReserve (Store.update (fun _ => none) 0 ⟨10, 3⟩) 0 2).1 = none
        ∧ (tryReserve (Store.update (fun _ => none) 0 ⟨10, 3⟩) 0 2).2
            = Store.update (fun _ => none) 0 ⟨10, 3⟩) :=
  reserve_increments_iff_capacity (Store.update (fun _ => none) 0 ⟨10, 3⟩)
    0 ⟨10, 3⟩ 2 rfl (by norm_num)

/- ### C9 — the session-expired webhook branch -/

/-- C9: the session-expired webhook branch transitions the referenced order
to `EXPIRED` exactly when its status is still `PENDING`, leaves an order in
any other status untouched, and changes nothing else: the Event collection
(hence `totalSeats` and `bookedSeats`) and the Booking ledger pass through
unchanged, and every field of the order other than `status` is
preserved. -/
theorem expired_webhook_pending_only (o : Order) (st : Store)
    (l : List Booking) :
    webhookExpired (some o) st l =
      (some (if o.status = .PENDING then { o with status := .EXPIRED } else o),
       st, l)
    ∧ (o.status ≠ .PENDING → webhookExpired (some o) st l = (some o, st, l)) := by
  unfold webhookExpired
  by_cases h : o.status = OrderStatus.PENDING
  · simp [h]
  · simp [h]

/-- Witness for C9: a concrete `PENDING` order becomes `EXPIRED`, store and
ledger untouched. -/
theorem expired_webhook_pending_only_witness :
    webhookExpired (some ⟨0, 1, .PENDING, none, none, none, none, none⟩)
        (fun _ => none) [] =
      (some (if (OrderStatus.PENDING = OrderStatus.PENDING) then
          { (⟨0, 1, .PENDING, none, none, none, none, none⟩ : Order) with
            status := .EXPIRED }
        else ⟨0, 1, .PENDING, none, none, none, none, none⟩),
       (fun _ => none), [])
    ∧ (OrderStatus.PENDING ≠ OrderStatus.PENDING →
        webhookExpired (some ⟨0, 1, .PENDING, none, none, none, none, none⟩)
            (fun _ => none) [] =
          (some ⟨0, 1, .PENDING, none, none, none, none, none⟩,
           (fun _ => none), [])) :=
  expired_webhook_pending_only ⟨0, 1, .PENDING, none, none, none, none, none⟩
    (fun _ => none) []

/- ### C7 — the compensating release -/

/-- C7 counterexample: the claim says `release` floors at 0 and never
leaves `bookedSeats` negative.  On an event with `bookedSeats = 0`,
releasing 1 seat stores `-1`: the `$inc` update is unconditional and runs
neither the schema `min` validator nor the pre-save clamp. -/
theorem release_not_floored :
    release (Store.update (fun _ => none) 0 ⟨1, 0⟩) 0 1 0 = some ⟨1, -1⟩ := by
  rw [release_found (Store.update (fun _ => none) 0 ⟨1, 0⟩) 0 1 ⟨1, 0⟩ rfl,
    Store.update_same]
  norm_num [Event.mk.injEq]

/-- C7 amended: `release(eventId, s)` unconditionally decrements
`bookedSeats` by `s` — it never fails on capacity and touches no other
event — but it does not floor at 0: the stored value is exactly
`bookedSeats - s` for every starting value, hence negative whenever the
starting value is smaller than `s`. -/
theorem release_unconditional_decrement (st : Store) (id : EventId) (s : ℚ)
    (e : Event) (hid : st id = some e) :
    release st id s id = some { e with bookedSeats := e.bookedSeats - s }
    ∧ (∀ j, j ≠ id → release st id s j = st j) := by
  rw [release_found st id s e hid]
  exact ⟨Store.update_same st id _,
    fun j hj => Store.update_other st id _ j hj⟩

/-- Witness for amended C7: releasing 1 seat from `bookedSeats = 0` stores
`0 - 1`. -/
theorem release_unconditional_decrement_witness :
    release (Store.update (fun _ => none) 5 ⟨1, 0⟩) 5 1 5 = some ⟨1, 0 - 1⟩
    ∧ (∀ j, j ≠ 5 →
        release (Store.update (fun _ => none) 5 ⟨1, 0⟩) 5 1 j
          = Store.update (fun _ => none) 5 ⟨1, 0⟩ j) :=
  release_unconditional_decrement (Store.update (fun _ => none) 5 ⟨1, 0⟩)
    5 1 ⟨1, 0⟩ rfl

/- ### C5 — uniqueness constraints of the Booking ledger -/

/-- C5 counterexample: two Booking inserts carrying the same
`stripeSessionId` (but distinct `ticketId`s) both succeed — the schema has
no uniqueness constraint on the session reference, so there is no
`DuplicateSession` failure and it is not true that at most one of the two
attempts succeeds. -/
theorem duplicate_session_not_rejected :
    bookingCreate [] ⟨0, 1, "T1", "PAID", some "sess", none⟩
      = (.created ⟨0, 1, "T1", "PAID", some "sess", none⟩,
         [⟨0, 1, "T1", "PAID", some "sess", none⟩])
    ∧ bookingCreate [⟨0, 1, "T1", "PAID", some "sess", none⟩]
        ⟨0, 1, "T2", "PAID", some "sess", none⟩
      = (.created ⟨0, 1, "T2", "PAID", some "sess", none⟩,
         [⟨0, 1, "T1", "PAID", some "sess", none⟩,
          ⟨0, 1, "T2", "PAID", some "sess", none⟩]) := by
  decide

/-- C5 amended: the Booking ledger enforces uniqueness on `ticketId` only:
an insert fails (with the duplicate-key condition) exactly when an existing
booking carries the same `ticketId`, a failed insert leaves the ledger
unchanged, a successful insert appends the booking, and the
`stripeSessionId` of the candidate has no influence on whether the insert
is rejected. -/
theorem bookingCreate_unique_ticket_only (ledger : List Booking) (b : Booking) :
    ((bookingCreate ledger b).1 = .dupTicket
      ↔ (ledger.any (fun x => x.ticketId = b.ticketId)) = true)
    ∧ ((bookingCreate ledger b).1 = .dupTicket →
        (bookingCreate ledger b).2 = ledger)
    ∧ ((bookingCreate ledger b).1 = .created b →
        (bookingCreate ledger b).2 = ledger ++ [b])
    ∧ (∀ sid,
        ((bookingCreate ledger { b with stripeSessionId := sid }).1 = .dupTicket
          ↔ (bookingCreate ledger b).1 = .dupTicket)) := by
  unfold bookingCreate
  by_cases h : (ledger.any (fun x => x.ticketId = b.ticketId)) = true
  · simp [h]
  · simp [h]

/-- Witness for amended C5 on a concrete one-element ledger and a candidate
reusing the stored `ticketId`. -/
theorem bookingCreate_unique_ticket_only_witness :
    ((bookingCreate [⟨0, 1, "T1", "PAID", some "sess", none⟩]
        ⟨0, 2, "T1", "PAID", some "other", none⟩).1 = .dupTicket
      ↔ (([⟨0, 1, "T1", "PAID", some "sess", none⟩] : List Booking).any
          (fun x => x.ticketId = "T1")) = true)
    ∧ ((bookingCreate [⟨0, 1, "T1", "PAID", some "sess", none⟩]
        ⟨0, 2, "T1", "PAID", some "other", none⟩).1 = .dupTicket →
        (bookingCreate [⟨0, 1, "T1", "PAID", some "sess", none⟩]
          ⟨0, 2, "T1", "PAID", some "other", none⟩).2
          = [⟨0, 1, "T1", "PAID", some "sess", none⟩])
    ∧ ((bookingCreate [⟨0, 1, "T1", "PAID", some "sess", none⟩]
        ⟨0, 2, "T1", "PAID", some "other", none⟩).1
          = .created ⟨0, 2, "T1", "PAID", some "other", none⟩ →
        (bookingCreate [⟨0, 1, "T1", "PAID", some "sess", none⟩]
          ⟨0, 2, "T1", "PAID", some "other", none⟩).2
          = [⟨0, 1, "T1", "PAID", some "sess", none⟩,
             ⟨0, 2, "T1", "PAID", some "other", none⟩])
    ∧ (∀ sid,
        ((bookingCreate [⟨0, 1, "T1", "PAID", some "sess", none⟩]
            { (⟨0, 2, "T1", "PAID", some "other", none⟩ : Booking) with
              stripeSessionId := sid }).1 = .dupTicket
          ↔ (bookingCreate [⟨0, 1, "T1", "PAID", some "sess", none⟩]
              ⟨0, 2, "T1", "PAID", some "other", none⟩).1 = .dupTicket)) :=
  bookingCreate_unique_ticket_only
    [⟨0, 1, "T1", "PAID", some "sess", none⟩]
    ⟨0, 2, "T1", "PAID", some "other", none⟩

/- ### C4 — who mutates bookedSeats, and the 0 ≤ bookedSeats ≤ totalSeats bound -/

/-- C4 counterexample: the claim says `bookedSeats` is mutated only through
the capacity-checked atomic primitive or its compensating release, never by
an application-level read-then-write.  The `bookSeats` handler is exactly
such a read-then-write: with the stored event at `bookedSeats = 5` of 10
but a stale snapshot read at `bookedSeats = 0`, the handler succeeds and
commits `bookedSeats = 1` — a lost-update overwrite that coincides with
neither the primitive (which would store 6) nor a release of the requested
seat count (which would store 4). -/
theorem bookSeats_read_then_write_counterexample :
    (bookSeats 1 (some ⟨10, 0⟩) (Store.update (fun _ => none) 0 ⟨10, 5⟩) 0).1
      = .ok 1 9
    ∧ (bookSeats 1 (some ⟨10, 0⟩) (Store.update (fun _ => none) 0 ⟨10, 5⟩) 0).2 0
      = some ⟨10, 1⟩
    ∧ (tryReserve (Store.update (fun _ => none) 0 ⟨10, 5⟩) 0 1).2 0
      = some ⟨10, 6⟩
    ∧ release (Store.update (fun _ => none) 0 ⟨10, 5⟩) 0 1 0 = some ⟨10, 4⟩ := by
  refine ⟨?_, ?_, ?_, ?_⟩
  · unfold bookSeats eventPreSave
    norm_num
  · unfold bookSeats eventPreSave
    norm_num [Store.update, Event.mk.injEq]
  · rw [tryReserve_has_room (Store.update (fun _ => none) 0 ⟨10, 5⟩) 0 1 ⟨10, 5⟩
      rfl (by norm_num)]
    simp only [Store.update_same]
    norm_num [Event.mk.injEq]
  · rw [release_found (Store.update (fun _ => none) 0 ⟨10, 5⟩) 0 1 ⟨10, 5⟩ rfl,
      Store.update_same]
    norm_num [Event.mk.injEq]

/-- The pre-save clamp forces any saved event document with a nonnegative
`totalSeats` into the range `0 ≤ bookedSeats ≤ totalSeats`. -/
theorem eventPreSave_bounds (ev : Event) (ht : 0 ≤ ev.totalSeats) :
    (eventPreSave ev).totalSeats = ev.totalSeats
    ∧ 0 ≤ (eventPreSave ev).bookedSeats
    ∧ (eventPreSave ev).bookedSeats ≤ (eventPreSave ev).totalSeats := by
  unfold eventPreSave
  dsimp only
  split_ifs with hA hB hB <;>
    refine ⟨rfl, ?_, ?_⟩ <;> dsimp only <;> linarith

/-- C4 amended: the range `0 ≤ bookedSeats ≤ totalSeats` is indeed
maintained — by the atomic primitive on its own path, and by the pre-save
clamp hook on the save path that `bookSeats` commits through — but the
exclusivity part of the claim fails: `bookSeats` is an additional
application-level read-then-write mutation path (see the counterexample),
and its capacity check runs against a possibly stale snapshot rather than
atomically against the store. -/
theorem seat_bounds_and_clamp (st : Store) (id : EventId) (s : ℚ) (e : Event)
    (hid : st id = some e) (hs : 0 ≤ s)
    (h0 : 0 ≤ e.bookedSeats) (h1 : e.bookedSeats ≤ e.totalSeats) :
    (∀ e', (tryReserve st id s).2 id = some e' →
        0 ≤ e'.bookedSeats ∧ e'.bookedSeats ≤ e'.totalSeats)
    ∧ (∀ ev : Event, 0 ≤ ev.totalSeats →
        0 ≤ (eventPreSave ev).bookedSeats
        ∧ (eventPreSave ev).bookedSeats ≤ (eventPreSave ev).totalSeats)
    ∧ (∀ (snap r : Event), 0 ≤ snap.totalSeats →
        (bookSeats s (some snap) st id).2 id = some r →
        0 ≤ r.bookedSeats ∧ r.bookedSeats ≤ r.totalSeats) := by
  have hself : ∀ r : Event, st id = some r →
      0 ≤ r.bookedSeats ∧ r.bookedSeats ≤ r.totalSeats := by
    intro r hr
    rw [hid] at hr
    cases hr
    exact ⟨h0, h1⟩
  refine ⟨?_, ?_, ?_⟩
  · intro e' he'
    by_cases hcap : e.bookedSeats + s ≤ e.totalSeats
    · rw [tryReserve_has_room st id s e hid hcap] at he'
      simp only [Store.update_same, Option.some_inj] at he'
      subst he'
      exact ⟨add_nonneg h0 hs, hcap⟩
    · rw [tryReserve_full st id s e hid hcap] at he'
      exact hself e' he'
  · intro ev ht
    exact (eventPreSave_bounds ev ht).2
  · intro snap r ht hr
    unfold bookSeats at hr
    dsimp only at hr
    split_ifs at hr with hbad hfull
    · exact hself r hr
    · exact hself r hr
    · dsimp only at hr
      rw [Store.update_same] at hr
      injection hr with hr
      subst hr
      exact (eventPreSave_bounds
        ⟨snap.totalSeats, snap.bookedSeats + s⟩ ht).2

/-- Witness for amended C4: the clamp bound evaluated through the theorem
at a concrete over-full document (17 booked of 10). -/
theorem seat_bounds_and_clamp_witness :
    0 ≤ (eventPreSave ⟨10, 17⟩).bookedSeats
    ∧ (eventPreSave ⟨10, 17⟩).bookedSeats ≤ (eventPreSave ⟨10, 17⟩).totalSeats :=
  (seat_bounds_and_clamp (Store.update (fun _ => none) 0 ⟨10, 5⟩) 0 1 ⟨10, 5⟩
      rfl (by norm_num) (by norm_num) (by norm_num)).2.1
    ⟨10, 17⟩ (by norm_num)

/- ### C8 — quantity validation in finalizePaidOrder -/

/-- C8 counterexample: the claim says every non-positive-integer quantity
(including fractional values such as 2.5) makes `finalizePaidOrder` mark
the order `FAILED` without reserving seats or creating a booking.  The
validation in the source is `!seats || seats < 1`, which a fractional
quantity of `5/2` passes: finalization proceeds, reserves 2.5 seats,
creates a booking, and commits the order as `PAID`. -/
theorem fractional_quantity_accepted :
    (finalizePaidOrder "TKT-A" false ⟨none, none, none⟩
      ⟨⟨0, 5/2, .PENDING, none, some "sess", none, none, none⟩,
       Store.update (fun _ => none) 0 ⟨10, 0⟩, []⟩).1
      = .ready "TKT-A" (some 0)
    ∧ (finalizePaidOrder "TKT-A" false ⟨none, none, none⟩
      ⟨⟨0, 5/2, .PENDING, none, some "sess", none, none, none⟩,
       Store.update (fun _ => none) 0 ⟨10, 0⟩, []⟩).2.order.status = .PAID
    ∧ (finalizePaidOrder "TKT-A" false ⟨none, none, none⟩
      ⟨⟨0, 5/2, .PENDING, none, some "sess", none, none, none⟩,
       Store.update (fun _ => none) 0 ⟨10, 0⟩, []⟩).2.store 0
      = some ⟨10, 5/2⟩
    ∧ (finalizePaidOrder "TKT-A" false ⟨none, none, none⟩
      ⟨⟨0, 5/2, .PENDING, none, some "sess", none, none, none⟩,
       Store.update (fun _ => none) 0 ⟨10, 0⟩, []⟩).2.ledger.length = 1 := by
  rw [finalize_success "TKT-A" false ⟨none, none, none⟩
    ⟨⟨0, 5/2, .PENDING, none, some "sess", none, none, none⟩,
     Store.update (fun _ => none) 0 ⟨10, 0⟩, []⟩ ⟨10, 0⟩
    rfl (by norm_num) rfl (by norm_num) rfl rfl]
  refine ⟨rfl, rfl, ?_, rfl⟩
  dsimp only
  rw [Store.update_same]
  norm_num [Event.mk.injEq]

/-- C8 amended: with the idempotency short-circuit not taken,
`finalizePaidOrder` reports `Invalid seats.` (marking the order `FAILED`
and touching neither the store nor the ledger) exactly when the numeric
quantity is `< 1` — zero, negative, or a fraction below 1.  Fractional
quantities of at least 1 are not rejected; they finalize normally and
reserve a fractional number of seats (see the counterexample). -/
theorem finalize_invalid_iff (g : String) (io : Bool) (sess : Session)
    (s : FinState)
    (h : (strTruthy s.order.ticketId && s.order.bookingId.isSome) = false) :
    ((finalizePaidOrder g io sess s).1 = .failed "Invalid seats."
      ↔ s.order.quantity < 1)
    ∧ (s.order.quantity < 1 →
        (finalizePaidOrder g io sess s).2.order.status = .FAILED
        ∧ (∀ j, (finalizePaidOrder g io sess s).2.store j = s.store j)
        ∧ (finalizePaidOrder g io sess s).2.ledger = s.ledger) := by
  by_cases hq : s.order.quantity < 1
  · rw [finalize_invalid g io sess s h hq]
    exact ⟨⟨fun _ => hq, fun _ => rfl⟩, fun _ => ⟨rfl, fun j => rfl, rfl⟩⟩
  · push_neg at hq
    have hmain : (finalizePaidOrder g io sess s).1 ≠ .failed "Invalid seats." := by
      rcases hid : s.store s.order.eventId with - | e
      · rw [finalize_noevent g io sess s h hq hid]
        simp
      · by_cases hcap : e.bookedSeats + s.order.quantity ≤ e.totalSeats
        · cases hio : io with
          | true =>
            rw [finalize_createfail g true sess s e h hq hid hcap (Or.inl rfl)]
            simp
          | false =>
            cases hdup : s.ledger.any (fun x => x.ticketId = g) with
            | true =>
              rw [finalize_createfail g false sess s e h hq hid hcap
                (Or.inr hdup)]
              simp
            | false =>
              rw [finalize_success g false sess s e h hq hid hcap rfl hdup]
              simp
        · rw [finalize_nocap g io sess s e h hq hid hcap]
          simp
    exact ⟨⟨fun hx => absurd hx hmain, fun hx => absurd hx (not_lt.mpr hq)⟩,
      fun hx => absurd hx (not_lt.mpr hq)⟩

/-- Witness for amended C8 at a concrete order with quantity 0: the call
reports `Invalid seats.` and mutates nothing but the order status. -/
theorem finalize_invalid_iff_witness :
    ((finalizePaidOrder "TKT-A" false ⟨none, none, none⟩
        ⟨⟨0, 0, .PENDING, none, some "sess", none, none, none⟩,
         Store.update (fun _ => none) 0 ⟨10, 0⟩, []⟩).1
        = .failed "Invalid seats."
      ↔ (0 : ℚ) < 1)
    ∧ ((0 : ℚ) < 1 →
        (finalizePaidOrder "TKT-A" false ⟨none, none, none⟩
          ⟨⟨0, 0, .PENDING, none, some "sess", none, none, none⟩,
           Store.update (fun _ => none) 0 ⟨10, 0⟩, []⟩).2.order.status = .FAILED
        ∧ (∀ j, (finalizePaidOrder "TKT-A" false ⟨none, none, none⟩
            ⟨⟨0, 0, .PENDING, none, some "sess", none, none, none⟩,
             Store.update (fun _ => none) 0 ⟨10, 0⟩, []⟩).2.store j
            = Store.update (fun _ => none) 0 ⟨10, 0⟩ j)
        ∧ (finalizePaidOrder "TKT-A" false ⟨none, none, none⟩
            ⟨⟨0, 0, .PENDING, none, some "sess", none, none, none⟩,
             Store.update (fun _ => none) 0 ⟨10, 0⟩, []⟩).2.ledger = []) :=
  finalize_invalid_iff "TKT-A" false ⟨none, none, none⟩
    ⟨⟨0, 0, .PENDING, none, some "sess", none, none, none⟩,
     Store.update (fun _ => none) 0 ⟨10, 0⟩, []⟩ rfl

/- ### C6 — no retry on ticket-id collision -/

/-- C6: the claim (and the spec) say finalize regenerates and retries the
booking write a bounded number of times on a `ticketId` collision.  The
source has no retry loop: on a single collision the `catch` releases the
seats, marks the order `FAILED`, and re-raises.  Evaluated here on a run
whose generated ticket id already exists in the ledger: the result is the
re-raised error, no booking is created, and no fresh id is attempted. -/
theorem single_ticket_collision_fatal :
    (finalizePaidOrder "TKT-A" false ⟨none, none, none⟩
      ⟨⟨0, 1, .PENDING, none, some "sess", none, none, none⟩,
       Store.update (fun _ => none) 0 ⟨10, 0⟩,
       [⟨1, 1, "TKT-A", "PAID", none, none⟩]⟩).1 = .thrown
    ∧ (finalizePaidOrder "TKT-A" false ⟨none, none, none⟩
      ⟨⟨0, 1, .PENDING, none, some "sess", none, none, none⟩,
       Store.update (fun _ => none) 0 ⟨10, 0⟩,
       [⟨1, 1, "TKT-A", "PAID", none, none⟩]⟩).2.ledger
      = [⟨1, 1, "TKT-A", "PAID", none, none⟩]
    ∧ (finalizePaidOrder "TKT-A" false ⟨none, none, none⟩
      ⟨⟨0, 1, .PENDING, none, some "sess", none, none, none⟩,
       Store.update (fun _ => none) 0 ⟨10, 0⟩,
       [⟨1, 1, "TKT-A", "PAID", none, none⟩]⟩).2.order.status = .FAILED
    ∧ (finalizePaidOrder "TKT-A" false ⟨none, none, none⟩
      ⟨⟨0, 1, .PENDING, none, some "sess", none, none, none⟩,
       Store.update (fun _ => none) 0 ⟨10, 0⟩,
       [⟨1, 1, "TKT-A", "PAID", none, none⟩]⟩).2.store 0 = some ⟨10, 0⟩ := by
  rw [finalize_createfail "TKT-A" false ⟨none, none, none⟩
    ⟨⟨0, 1, .PENDING, none, some "sess", none, none, none⟩,
     Store.update (fun _ => none) 0 ⟨10, 0⟩,
     [⟨1, 1, "TKT-A", "PAID", none, none⟩]⟩ ⟨10, 0⟩
    rfl (by norm_num) rfl (by norm_num) (Or.inr rfl)]
  refine ⟨rfl, rfl, rfl, ?_⟩
  dsimp only
  rw [release_found _ _ _ ⟨10, (0 : ℚ) + 1⟩ (Store.update_same _ _ _),
    Store.update_same]
  norm_num [Event.mk.injEq]

/- ### C3 — compensation when the booking write fails after a reservation -/

/-- C3: when the booking-ledger write inside `finalizePaidOrder` fails
after the seat reservation succeeded (an infrastructure failure or a
duplicate key), finalize releases the reserved seats — every event in the
store, the reserved one included, ends at its value from before the call —
marks the order `FAILED` and persists it, leaves the ledger unchanged, and
re-raises the failure to the caller instead of swallowing it. -/
theorem finalize_compensation (g : String) (io : Bool) (sess : Session)
    (s : FinState) (e : Event)
    (h : (strTruthy s.order.ticketId && s.order.bookingId.isSome) = false)
    (hq : 1 ≤ s.order.quantity)
    (hid : s.store s.order.eventId = some e)
    (hcap : e.bookedSeats + s.order.quantity ≤ e.totalSeats)
    (hfail : io = true ∨ (s.ledger.any (fun x => x.ticketId = g)) = true) :
    (finalizePaidOrder g io sess s).1 = .thrown
    ∧ (∀ j, (finalizePaidOrder g io sess s).2.store j = s.store j)
    ∧ (finalizePaidOrder g io sess s).2.ledger = s.ledger
    ∧ (finalizePaidOrder g io sess s).2.order.status = .FAILED := by
  rw [finalize_createfail g io sess s e h hq hid hcap hfail]
  refine ⟨rfl, ?_, rfl, rfl⟩
  intro j
  dsimp only
  rw [release_found _ _ _
    { e with bookedSeats := e.bookedSeats + s.order.quantity }
    (Store.update_same _ _ _)]
  by_cases hj : j = s.order.eventId
  · subst hj
    rw [Store.update_same, hid, Option.some_inj]
    exact Event.ext rfl (add_sub_cancel_right _ _)
  · rw [Store.update_other _ _ _ _ hj, Store.update_other _ _ _ _ hj]

/-- Witness for C3: a concrete order for 2 seats over an event at 1 of 5
booked, with the ledger write failing for an infrastructure reason. -/
theorem finalize_compensation_witness :
    (finalizePaidOrder "TKT-C" true ⟨none, none, none⟩
      ⟨⟨0, 2, .PENDING, none, some "sess", none, none, none⟩,
       Store.update (fun _ => none) 0 ⟨5, 1⟩, []⟩).1 = .thrown
    ∧ (∀ j, (finalizePaidOrder "TKT-C" true ⟨none, none, none⟩
        ⟨⟨0, 2, .PENDING, none, some "sess", none, none, none⟩,
         Store.update (fun _ => none) 0 ⟨5, 1⟩, []⟩).2.store j
        = Store.update (fun _ => none) 0 ⟨5, 1⟩ j)
    ∧ (finalizePaidOrder "TKT-C" true ⟨none, none, none⟩
        ⟨⟨0, 2, .PENDING, none, some "sess", none, none, none⟩,
         Store.update (fun _ => none) 0 ⟨5, 1⟩, []⟩).2.ledger = []
    ∧ (finalizePaidOrder "TKT-C" true ⟨none, none, none⟩
        ⟨⟨0, 2, .PENDING, none, some "sess", none, none, none⟩,
         Store.update (fun _ => none) 0 ⟨5, 1⟩, []⟩).2.order.status = .FAILED :=
  finalize_compensation "TKT-C" true ⟨none, none, none⟩
    ⟨⟨0, 2, .PENDING, none, some "sess", none, none, none⟩,
     Store.update (fun _ => none) 0 ⟨5, 1⟩, []⟩ ⟨5, 1⟩
    rfl (by norm_num) rfl (by norm_num) (Or.inl rfl)

/- ### C2 — idempotent finalization -/

/-- C2: finalization is idempotent.  First, for every order whose
`ticketId` and `bookingId` are both set, `finalizePaidOrder` returns
`READY` with the stored identifiers immediately and mutates nothing.
Consequently, if a finalize call returns `READY` (with a nonempty
generated ticket id), a second sequential call on the resulting state
returns the same ticket and booking identifiers and again mutates nothing;
across the two calls at most one booking is created — exactly one when the
order was not already finalized at the outset. -/
theorem finalize_idempotent :
    (∀ (g : String) (io : Bool) (sess : Session) (s : FinState),
        (strTruthy s.order.ticketId && s.order.bookingId.isSome) = true →
        finalizePaidOrder g io sess s =
          (.ready (s.order.ticketId.getD "") s.order.bookingId, s))
    ∧ (∀ (g1 g2 : String) (io1 io2 : Bool) (sess : Session) (s s1 : FinState)
        (t : String) (b : Option Nat),
        g1 ≠ "" →
        finalizePaidOrder g1 io1 sess s = (.ready t b, s1) →
        finalizePaidOrder g2 io2 sess s1 = (.ready t b, s1)
        ∧ s1.ledger.length ≤ s.ledger.length + 1
        ∧ ((strTruthy s.order.ticketId && s.order.bookingId.isSome) = false →
            s1.ledger.length = s.ledger.length + 1)) := by
  constructor
  · exact finalize_short
  · intro g1 g2 io1 io2 sess s s1 t b hg1 h1
    cases hc : (strTruthy s.order.ticketId && s.order.bookingId.isSome) with
    | true =>
      rw [finalize_short g1 io1 sess s hc] at h1
      injection h1 with hr hs1
      injection hr with ht hb
      subst hs1
      subst ht
      subst hb
      refine ⟨finalize_short g2 io2 sess s hc, Nat.le_succ _, ?_⟩
      intro hfalse
      simp [hc] at hfalse
    | false =>
      by_cases hq1 : s.order.quantity < 1
      · rw [finalize_invalid g1 io1 sess s hc hq1] at h1
        simp at h1
      · push_neg at hq1
        rcases hid : s.store s.order.eventId with - | e
        · rw [finalize_noevent g1 io1 sess s hc hq1 hid] at h1
          simp at h1
        · by_cases hcap : e.bookedSeats + s.order.quantity ≤ e.totalSeats
          · cases hio1 : io1 with
            | true =>
              rw [hio1] at h1
              rw [finalize_createfail g1 true sess s e hc hq1 hid hcap
                (Or.inl rfl)] at h1
              simp at h1
            | false =>
              rw [hio1] at h1
              cases hdup : s.ledger.any (fun x => x.ticketId = g1) with
              | true =>
                rw [finalize_createfail g1 false sess s e hc hq1 hid hcap
                  (Or.inr hdup)] at h1
                simp at h1
              | false =>
                rw [finalize_success g1 false sess s e hc hq1 hid hcap rfl
                  hdup] at h1
                injection h1 with hr hs1
                injection hr with ht hb
                subst hs1
                subst ht
                subst hb
                have hc2 : (strTruthy (some g1)
                    && (Option.isSome (some s.ledger.length))) = true := by
                  simp only [strTruthy, Option.isSome_some, Bool.and_true]
                  exact decide_eq_true hg1
                refine ⟨finalize_short g2 io2 sess _ hc2, by simp,
                  fun _ => by simp⟩
          · rw [finalize_nocap g1 io1 sess s e hc hq1 hid hcap] at h1
            simp at h1

/-- Witness for C2: the short-circuit applied to a concrete already
finalized order. -/
theorem finalize_idempotent_witness :
    finalizePaidOrder "G2" false ⟨none, none, none⟩
        ⟨⟨0, 1, .PAID, some "paid", some "sess", none, some 0, some "TKT-A"⟩,
         Store.update (fun _ => none) 0 ⟨10, 1⟩,
         [⟨0, 1, "TKT-A", "PAID", some "sess", none⟩]⟩ =
      (.ready ((some "TKT-A").getD "") (some 0),
       ⟨⟨0, 1, .PAID, some "paid", some "sess", none, some 0, some "TKT-A"⟩,
        Store.update (fun _ => none) 0 ⟨10, 1⟩,
        [⟨0, 1, "TKT-A", "PAID", some "sess", none⟩]⟩) :=
  finalize_idempotent.1 "G2" false ⟨none, none, none⟩
    ⟨⟨0, 1, .PAID, some "paid", some "sess", none, some 0, some "TKT-A"⟩,
     Store.update (fun _ => none) 0 ⟨10, 1⟩,
     [⟨0, 1, "TKT-A", "PAID", some "sess", none⟩]⟩ rfl

/- ### C10 — the status-poll resolved check is on ticketId alone -/

/-- C10: for every stored order whose `ticketId` is truthy,
`getStripeResultBySession` replies `READY` with that ticket id (and the
stored `bookingId`, possibly null) without contacting the payment provider
and without invoking `finalizePaidOrder` — regardless of the order status
and even when `bookingId` is still null.  This is asymmetric with the
short-circuit of `finalizePaidOrder` itself, which requires both
identifiers: on a concrete order with `ticketId` set but `bookingId` null,
finalize does not short-circuit and instead proceeds to the reservation
step (failing here on capacity). -/
theorem poll_ready_on_ticket_alone :
    (∀ (g : String) (io : Bool) (sess : Session) (o : Order) (st : Store)
        (l : List Booking),
        strTruthy o.ticketId = true →
        getStripeResultBySession g io sess (some o) st l =
          (⟨200, "READY", o.ticketId, o.bookingId, none, false, false⟩,
           st, l, some o))
    ∧ (finalizePaidOrder "TKT-B" false ⟨none, none, none⟩
        ⟨⟨0, 1, .PENDING, none, some "sess", none, none, some "TKT-A"⟩,
         Store.update (fun _ => none) 0 ⟨1, 1⟩, []⟩).1
        = .failed "Not enough seats available." := by
  constructor
  · intro g io sess o st l h
    unfold getStripeResultBySession
    dsimp only
    rw [if_pos h]
  · rw [finalize_nocap "TKT-B" false ⟨none, none, none⟩
      ⟨⟨0, 1, .PENDING, none, some "sess", none, none, some "TKT-A"⟩,
       Store.update (fun _ => none) 0 ⟨1, 1⟩, []⟩ ⟨1, 1⟩
      rfl (by norm_num) rfl (by norm_num)]

/-- Witness for C10: a concrete `FAILED` order with `ticketId` set and
`bookingId` null still polls as `READY`, with no provider contact and no
finalize invocation. -/
theorem poll_ready_on_ticket_alone_witness :
    getStripeResultBySession "G" false ⟨none, none, none⟩
        (some ⟨0, 1, .FAILED, none, some "sess", none, none, some "TKT-A"⟩)
        (fun _ => none) [] =
      (⟨200, "READY", some "TKT-A", none, none, false, false⟩,
       (fun _ => none), [],
       some ⟨0, 1, .FAILED, none, some "sess", none, none, some "TKT-A"⟩) :=
  poll_ready_on_ticket_alone.1 "G" false ⟨none, none, none⟩
    ⟨0, 1, .FAILED, none, some "sess", none, none, some "TKT-A"⟩
    (fun _ => none) [] rfl

end EventTicketing
